import Mathlib

/-!
Verification of the graph-store upsert protocol of
`mrorigo/agentic-deep-graph-reasoning` (`src/clients/neo4j.py` and
`src/application.py`), as a shallow embedding.

Modelling conventions:
* The durable Neo4j state is a `Graph`: a list of nodes (each with the
  store-assigned `elementId`, the `name` and `description` properties and the
  label set) and a list of edges (endpoint ids, relationship type, property
  map).
* Cypher queries issued by the Python client are embedded by their semantics
  on that state.  A transaction function (`execute_write` body) either
  succeeds with a new state or fails; failure rolls the state back.
* The two ways the string-built queries of `create_node` are malformed are
  modelled explicitly: an empty category set leaves a dangling label colon
  (`CREATE (n: \x7b...\x7d)` / `SET n:`), a parse error, and a label that is
  empty or contains a backtick cannot be quoted by the `` `...` `` wrapping
  the code applies.  Relationship types are stripped of backticks and quote
  characters by the code itself, so for them only the empty token remains
  (Neo4j refuses to create a relationship type with an empty token name).
* Property values are the scalar shapes named by the spec (string, number,
  boolean) plus nested string-keyed maps, which is what the Python layer
  passes through to the store.
-/

namespace AgenticKG

/-- A property value as handed to the store by the Python layer: a scalar
(string, integer, boolean) or a string-keyed map. -/
inductive PyVal : Type where
  | str (s : String)
  | int (n : Int)
  | bool (b : Bool)
  | dict (entries : List (String × PyVal))

/-- The Python `isinstance(x, dict)` test used by `_create_relationship_tx`. -/
def PyVal.isDict : PyVal → Bool
  | .dict _ => true
  | _ => false

/-- The entries of a map value (empty for scalars; only applied to maps). -/
def PyVal.dictEntries : PyVal → List (String × PyVal)
  | .dict l => l
  | _ => []

/-- Set key `k` to `v` in a string-keyed property map, replacing the first
occurrence of `k` or appending when absent. -/
def setKey : List (String × PyVal) → String → PyVal → List (String × PyVal)
  | [], k, v => [(k, v)]
  | p :: rest, k, v => if p.1 == k then (k, v) :: rest else p :: setKey rest k v

/-- Cypher `SET r += $attributes`: every key of `new` is written onto `m`,
existing keys not mentioned in `new` survive. -/
def overlay (m new : List (String × PyVal)) : List (String × PyVal) :=
  new.foldl (fun acc p => setKey acc p.1 p.2) m

/-- Lookup of a key in a property map (first occurrence). -/
def lookupKey : List (String × PyVal) → String → Option PyVal
  | [], _ => none
  | p :: rest, k => if p.1 == k then some p.2 else lookupKey rest k

/-- Left-biased choice between two optional values. -/
def firstSome (a b : Option PyVal) : Option PyVal :=
  match a with
  | some v => some v
  | none => b

/-- A property map with no repeated keys (every map built by the Python
`dict` type has this shape). -/
def keysNodup (m : List (String × PyVal)) : Prop :=
  (m.map Prod.fst).Nodup

/-- Modelled from the spec: the `Entity` data contract of `core.models`
(that module is not under `src/`).  Per the spec, `name` is the exact-match
identity key, `description` is free text, and `category` is a set of string
labels (zero or more), here carried as a list. -/
structure Entity where
  name : String
  description : String
  category : List String

/-- Modelled from the spec: the `Relationship` data contract of
`core.models` (not under `src/`): two endpoint entity names, a relation
type string, and an attribute value that is normally a string-keyed map. -/
structure Relationship where
  source_entity_name : String
  target_entity_name : String
  relation_type : String
  attributes : PyVal

/-- A stored node: Neo4j element id, the `name` and `description`
properties, and the accumulated label set. -/
structure Node where
  id : Nat
  name : String
  description : String
  labels : List String

/-- A stored edge: endpoint element ids, relationship type, property map. -/
structure Edge where
  src : Nat
  tgt : Nat
  relType : String
  attrs : List (String × PyVal)

/-- The durable store state. -/
structure Graph where
  nodes : List Node
  edges : List Edge
  nextId : Nat

/-- The store before any upsert. -/
def emptyGraph : Graph := ⟨[], [], 0⟩

/-- A label token the `` `...` `` quoting in `_create_node_tx` can actually
produce: non-empty and backtick-free (a backtick inside the quotes, or an
empty quoted name, is rejected by the store). -/
def validToken (s : String) : Bool :=
  !(s == "") && s.data.all (fun ch => ch != Char.ofNat 96)

/-- Whether the label fragment `":".join(...)` of `_create_node_tx` yields a
well-formed query.  An empty category list leaves the bare `n:` of the
f-string (`CREATE (n: \x7b...\x7d)` or `SET n:`), a Cypher parse error. -/
def labelsOk (cats : List String) : Bool :=
  !cats.isEmpty && cats.all validToken

/-- Cypher label addition: append the label unless already present. -/
def addLabel (ls : List String) (c : String) : List String :=
  if ls.contains c then ls else ls ++ [c]

/-- `SET n:A:B:...` — add every category as a label, never removing any. -/
def addLabels (ls : List String) (cs : List String) : List String :=
  cs.foldl addLabel ls

/-- The body of `_create_node_tx`: match a node on the `name` property; if
found, run the label-merge `SET` query and return the existing element id;
otherwise run the `CREATE` query and return the fresh element id.  Either
query is malformed when `labelsOk` fails, which fails the transaction. -/
def create_node_tx (g : Graph) (e : Entity) : Except String (Graph × Nat) :=
  match g.nodes.find? (fun n => n.name == e.name) with
  | some n =>
    if labelsOk e.category then
      .ok ({ g with
              nodes := g.nodes.map (fun m =>
                if m.id == n.id then { m with labels := addLabels m.labels e.category } else m) },
           n.id)
    else
      .error "SyntaxError"
  | none =>
    if labelsOk e.category then
      .ok ({ g with
              nodes := g.nodes ++
                [{ id := g.nextId, name := e.name, description := e.description,
                   labels := addLabels [] e.category }],
              nextId := g.nextId + 1 },
           g.nextId)
    else
      .error "SyntaxError"

/-- The outcome of a Python call as seen by the caller: a returned value or
an escaping exception. -/
inductive Outcome (α : Type) : Type where
  | ret (v : α)
  | raise (msg : String)
deriving DecidableEq

/-- `Neo4jClient.create_node`: when the store is reachable the transaction
body runs (rolled back on failure); every exception — unreachable store
included — is caught by the `except` block, which logs and returns `None`.
`avail` models whether the underlying store can be reached. -/
def create_node (avail : Bool) (g : Graph) (e : Entity) : Graph × Outcome (Option Nat) :=
  if avail then
    match create_node_tx g e with
    | .ok (g2, nid) => (g2, .ret (some nid))
    | .error _ => (g, .ret none)
  else
    (g, .ret none)

/-- Number of stored nodes whose `name` property equals `nm`. -/
def countName (g : Graph) (nm : String) : Nat :=
  g.nodes.countP (fun n => n.name == nm)

/-- Remove every occurrence of the character `c` from `s`; for a single
character this is exactly Python `s.replace(c, "")`. -/
def stripChar (c : Char) (s : String) : String :=
  String.mk (s.data.filter (fun ch => ch != c))

/-- The sanitation of `_create_relationship_tx`:
`relation_type.replace(backtick, "").replace(quote, "").replace(apostrophe, "")`. -/
def sanitizeRelType (rt : String) : String :=
  stripChar (Char.ofNat 39) (stripChar (Char.ofNat 34) (stripChar (Char.ofNat 96) rt))

/-- The in-place normalization at the top of `_create_relationship_tx`: a
non-map `attributes` field is reassigned to a one-entry map under the key
`stored_data`.  This mutates the caller's `Relationship` object. -/
def wrapAttrs (r : Relationship) : Relationship :=
  if r.attributes.isDict then r
  else { r with attributes := .dict [("stored_data", r.attributes)] }

/-- The edge key used by `MERGE (source)-[r:T]->(target)`: both endpoint
ids and the (sanitized) relationship type. -/
def tripleP (sid tid : Nat) (rt : String) (e : Edge) : Bool :=
  e.src == sid && e.tgt == tid && e.relType == rt

/-- The rows produced by the two `MATCH` clauses: every stored node whose
`name` equals the source name, paired with every stored node whose `name`
equals the target name. -/
def relationship_rows (g : Graph) (r : Relationship) : List (Node × Node) :=
  (g.nodes.filter (fun n => n.name == r.source_entity_name)).foldr
    (fun s acc =>
      ((g.nodes.filter (fun n => n.name == r.target_entity_name)).map (fun t => (s, t))) ++ acc)
    []

/-- `MERGE ... SET r += $attributes` for one row: reuse every edge matching
the key and overlay the attributes, or create the edge and set its
attributes.  Creating an edge whose sanitized type is the empty string is
refused by the store (empty token name), failing the transaction. -/
def mergeRow (rt : String) (attrs : List (String × PyVal)) (g : Graph) (row : Node × Node) :
    Except String Graph :=
  if g.edges.any (tripleP row.1.id row.2.id rt) then
    .ok { g with
            edges := g.edges.map (fun e =>
              if tripleP row.1.id row.2.id rt e then { e with attrs := overlay e.attrs attrs }
              else e) }
  else if rt == "" then
    .error "IllegalTokenName"
  else
    .ok { g with
            edges := g.edges ++
              [{ src := row.1.id, tgt := row.2.id, relType := rt, attrs := overlay [] attrs }] }

/-- Run the merge for each row in order; a failing row fails the whole
transaction. -/
def runRows (rt : String) (attrs : List (String × PyVal)) :
    Graph → List (Node × Node) → Except String Graph
  | g, [] => .ok g
  | g, row :: rest =>
    match mergeRow rt attrs g row with
    | .ok g2 => runRows rt attrs g2 rest
    | .error msg => .error msg

/-- The query of `_create_relationship_tx` (run after the attribute
normalization): match both endpoints by name and merge the edge per row.
With zero rows nothing is touched. -/
def relationship_query (g : Graph) (r : Relationship) : Except String Graph :=
  runRows (sanitizeRelType r.relation_type) r.attributes.dictEntries g (relationship_rows g r)

/-- `Neo4jClient.create_relationship`: the transaction body first mutates
the argument's `attributes` field (`wrapAttrs`), then runs the query; a
transaction failure is rolled back, logged by the `except` block, and
swallowed (the method always returns normally).  The second component is
the caller's `Relationship` object after the call. -/
def create_relationship (avail : Bool) (g : Graph) (r : Relationship) : Graph × Relationship :=
  if avail then
    let r2 := wrapAttrs r
    match relationship_query g r2 with
    | .ok g2 => (g2, r2)
    | .error _ => (g, r2)
  else
    (g, r)

/-- Number of stored edges matching the `(source id, target id, type)` key. -/
def countEdgesTriple (g : Graph) (sid tid : Nat) (rt : String) : Nat :=
  g.edges.countP (tripleP sid tid rt)

/-- The attribute map of the first stored edge matching the key. -/
def edgeAttrsTriple (g : Graph) (sid tid : Nat) (rt : String) : Option (List (String × PyVal)) :=
  (g.edges.find? (tripleP sid tid rt)).map Edge.attrs

/-- All directed edge chains starting at node `cur` that repeat no stored
relationship, tracked by edge position; `[*]` path semantics.  The fuel is
instantiated with the edge count, which bounds every such chain. -/
def pathsFromAux (all : List Edge) : Nat → List Nat → Nat → List (List Edge)
  | 0, _, _ => [[]]
  | fuel + 1, used, cur =>
    [[]] ++ (all.enum.filter (fun p => p.2.src == cur && !(used.contains p.1))).flatMap
      (fun p => (pathsFromAux all fuel (p.1 :: used) p.2.tgt).map (fun q => p.2 :: q))

/-- The `name` property of the node with element id `i`. -/
def nameOfId (g : Graph) (i : Nat) : String :=
  match g.nodes.find? (fun n => n.id == i) with
  | some n => n.name
  | none => ""

/-- One record per path of relationship-length at least one, as returned by
`MATCH p = (n)-[*]->(m)`: the node names along the path and its length. -/
def pathRecords (g : Graph) : List (List String × Nat) :=
  g.nodes.flatMap (fun n =>
    ((pathsFromAux g.edges g.edges.length [] n.id).filter (fun p => !p.isEmpty)).map
      (fun p => ((n.id :: p.map Edge.tgt).map (nameOfId g), p.length)))

/-- Insertion step of a stable sort by descending path length. -/
def insertDesc (x : List String × Nat) : List (List String × Nat) → List (List String × Nat)
  | [] => [x]
  | y :: ys => if y.2 ≤ x.2 then x :: y :: ys else y :: insertDesc x ys

/-- `ORDER BY length(p) DESC` (ties in store order). -/
def sortDesc : List (List String × Nat) → List (List String × Nat)
  | [] => []
  | x :: xs => insertDesc x (sortDesc xs)

/-- `Neo4jClient.find_longest_paths`.  The Python method collects the query
records and then returns `None` both when the record list is falsy (empty)
and when the query raises.  (As written the query even places `ORDER BY`
and `LIMIT` between `MATCH` and `RETURN`, which Neo4j rejects, making the
exception path the one actually taken; on a graph with no paths both
readings return `None`, so the charitable path semantics is embedded.) -/
def find_longest_paths (avail : Bool) (g : Graph) : Option (List (List String)) :=
  if avail then
    let results := ((sortDesc (pathRecords g)).take 3).map Prod.fst
    if results.isEmpty then none else some results
  else
    none

/-- An observable step of `application.main` around the generation run. -/
inductive Event : Type where
  | runGeneration
  | logException
  | printError (msg : String)
  | closeClient
  | logFinished
deriving DecidableEq

/-- How `run_kg_generation_iterations` ends: normal return or an escaping
exception. -/
inductive GenOutcome : Type where
  | ok
  | exc (msg : String)

/-- The `try`/`except` body of `main`: run the generation; an escaping
exception is logged, printed, and converted to exit code 2 (`sys.exit(2)`). -/
def genBody : GenOutcome → List Event × Option Nat
  | .ok => ([.runGeneration], none)
  | .exc msg => ([.runGeneration, .logException, .printError msg], some 2)

/-- Python `finally`: the cleanup events run after the body on every exit
path — normal return and escaping exception (including `SystemExit`) alike —
before the outcome surfaces to the caller. -/
def withFinally (body : List Event × Option Nat) (cleanup : List Event) : List Event × Option Nat :=
  (body.1 ++ cleanup, body.2)

/-- The `try ... except ... finally` of `application.main` around
`run_kg_generation_iterations`: the `finally` closes the Neo4j client and
logs completion. -/
def mainCore (o : GenOutcome) : List Event × Option Nat :=
  withFinally (genBody o) [.closeClient, .logFinished]

/-- The driver handle owned by a `Neo4jClient`; the underlying
`Driver.close` is idempotent, so closing only flips a flag. -/
structure DriverHandle where
  closed : Bool

/-- The `Neo4jClient` connection state: `_driver` is `None` only when
construction failed before the driver object was created; it is never reset
to `None` afterwards. -/
structure ClientConn where
  driver : Option DriverHandle

/-- The log line emitted by `Neo4jClient.close`. -/
inductive LogMsg : Type where
  | infoClosed
  | warnAlready
deriving DecidableEq

/-- `Neo4jClient.close`: when `_driver` is set (truthy) it calls
`_driver.close()` and logs the info line; only when `_driver` is `None`
does it log the already-closed warning.  `_driver` is never cleared. -/
def close (c : ClientConn) : ClientConn × LogMsg :=
  match c.driver with
  | some d => ({ driver := some { d with closed := true } }, .infoClosed)
  | none => (c, .warnAlready)

/-! Concrete instances used by witnesses, counterexamples and failing-input
evaluations. -/

/-- A stored node for the entity `Paris`. -/
def nodeParis : Node := ⟨0, "Paris", "capital of France", ["City"]⟩

/-- A stored node for the entity `France`. -/
def nodeFrance : Node := ⟨1, "France", "a country", ["Country"]⟩

/-- A store holding `Paris` and `France` and no edges. -/
def gPF : Graph := ⟨[nodeParis, nodeFrance], [], 2⟩

/-- An entity whose category set is empty. -/
def eParisNoCat : Entity := ⟨"Paris", "capital of France", []⟩

/-- A duplicate `Paris` entity adding the `Capital` label. -/
def eParisCapital : Entity := ⟨"Paris", "the capital", ["Capital"]⟩

/-- The `capital_of` relationship with the 1789 attribute value. -/
def rSince1 : Relationship := ⟨"Paris", "France", "capital_of", .dict [("since", .int 1789)]⟩

/-- The `capital_of` relationship with the 1792 attribute value. -/
def rSince2 : Relationship := ⟨"Paris", "France", "capital_of", .dict [("since", .int 1792)]⟩

/-- A relationship whose type consists only of characters the code strips. -/
def rEmptyTy : Relationship := ⟨"Paris", "France", "", .dict [("since", .int 1789)]⟩

/-- A relationship whose target name matches no stored node. -/
def rDangling : Relationship := ⟨"Paris", "Atlantis", "near", .dict [("dist", .int 9)]⟩

/-- A relationship whose attributes field is a bare string, not a map. -/
def rLoose : Relationship := ⟨"Paris", "France", "capital_of", .str "loose"⟩

/-- Two stored nodes and zero edges: a graph containing no paths. -/
def gTwoIsolated : Graph := ⟨[⟨0, "A", "", ["Thing"]⟩, ⟨1, "B", "", ["Thing"]⟩], [], 2⟩

/-! Helper lemmas about property maps. -/

theorem lookupKey_setKey (m : List (String × PyVal)) (k : String) (v : PyVal) (k2 : String) :
    lookupKey (setKey m k v) k2 = if k2 = k then some v else lookupKey m k2 := by
  induction m with
  | nil =>
    by_cases h : k2 = k
    · subst h; simp [setKey, lookupKey]
    · have hb : (k == k2) = false := beq_eq_false_iff_ne.mpr (Ne.symm h)
      simp [setKey, lookupKey, hb, h]
  | cons p rest ih =>
    by_cases hp : p.1 = k
    · have hpb : (p.1 == k) = true := beq_iff_eq.mpr hp
      by_cases h : k2 = k
      · subst h; simp [setKey, lookupKey, hpb]
      · have hb : (k == k2) = false := beq_eq_false_iff_ne.mpr (Ne.symm h)
        have hpb2 : (p.1 == k2) = false := by rw [hp]; exact hb
        simp [setKey, lookupKey, hpb, hb, hpb2, h]
    · have hpb : (p.1 == k) = false := beq_eq_false_iff_ne.mpr hp
      by_cases h2 : p.1 = k2
      · have hpb2 : (p.1 == k2) = true := beq_iff_eq.mpr h2
        have hk : ¬ k2 = k := fun hh => hp (h2.trans hh)
        simp [setKey, lookupKey, hpb, hpb2, hk]
      · have hpb2 : (p.1 == k2) = false := beq_eq_false_iff_ne.mpr h2
        simp [setKey, lookupKey, hpb, hpb2, ih]

theorem lookupKey_eq_none_of_not_mem (m : List (String × PyVal)) (k : String)
    (h : k ∉ m.map Prod.fst) : lookupKey m k = none := by
  induction m with
  | nil => rfl
  | cons p rest ih =>
    simp only [List.map_cons, List.mem_cons, not_or] at h
    have hpb : (p.1 == k) = false := beq_eq_false_iff_ne.mpr (fun hh => h.1 hh.symm)
    simp only [lookupKey, hpb, if_false]
    exact ih h.2

theorem keysNodup_cons {p : String × PyVal} {rest : List (String × PyVal)}
    (h : keysNodup (p :: rest)) : p.1 ∉ rest.map Prod.fst ∧ keysNodup rest := by
  simpa [keysNodup, List.nodup_cons] using h

theorem lookupKey_overlay (new : List (String × PyVal)) (hn : keysNodup new)
    (m : List (String × PyVal)) (k : String) :
    lookupKey (overlay m new) k = firstSome (lookupKey new k) (lookupKey m k) := by
  induction new generalizing m with
  | nil => simp [overlay, lookupKey, firstSome]
  | cons p rest ih =>
    obtain ⟨hp, hrest⟩ := keysNodup_cons hn
    have hstep : overlay m (p :: rest) = overlay (setKey m p.1 p.2) rest := rfl
    rw [hstep, ih hrest]
    by_cases h : k = p.1
    · have hnone : lookupKey rest p.1 = none := lookupKey_eq_none_of_not_mem rest p.1 hp
      have hpb : (p.1 == k) = true := beq_iff_eq.mpr h.symm
      simp [hnone, firstSome, lookupKey_setKey, lookupKey, hpb, h]
    · have hpb : (p.1 == k) = false := beq_eq_false_iff_ne.mpr (fun hh => h hh.symm)
      simp [firstSome, lookupKey_setKey, h, lookupKey, hpb]

theorem firstSome_none_right (a : Option PyVal) : firstSome a none = a := by
  cases a <;> rfl

theorem find?_append_of_none {α : Type} (p : α → Bool) (l1 l2 : List α)
    (h : l1.find? p = none) : (l1 ++ l2).find? p = l2.find? p := by
  induction l1 with
  | nil => rfl
  | cons a l1 ih =>
    cases hp : p a with
    | true => simp [List.find?, hp] at h
    | false =>
      simp only [List.find?, hp] at h
      simpa [List.find?, hp] using ih h

/-! Helper lemmas about labels. -/

theorem mem_addLabel_of_mem {ls : List String} {c l : String} (h : l ∈ ls) :
    l ∈ addLabel ls c := by
  unfold addLabel
  split
  · exact h
  · exact List.mem_append_left _ h

theorem mem_addLabels_of_mem {ls : List String} {cs : List String} {l : String} (h : l ∈ ls) :
    l ∈ addLabels ls cs := by
  induction cs generalizing ls with
  | nil => exact h
  | cons c cs ih => exact ih (mem_addLabel_of_mem h)

/-! Helper lemmas about `create_relationship`. -/

theorem wrapAttrs_eq_self (r : Relationship) (a : List (String × PyVal))
    (ha : r.attributes = .dict a) : wrapAttrs r = r := by
  simp [wrapAttrs, ha, PyVal.isDict]

theorem wrapAttrs_source (r : Relationship) :
    (wrapAttrs r).source_entity_name = r.source_entity_name := by
  unfold wrapAttrs; split <;> rfl

theorem wrapAttrs_target (r : Relationship) :
    (wrapAttrs r).target_entity_name = r.target_entity_name := by
  unfold wrapAttrs; split <;> rfl

theorem rows_eq_nil (g : Graph) (r : Relationship)
    (h : g.nodes.filter (fun n => n.name == r.source_entity_name) = [] ∨
         g.nodes.filter (fun n => n.name == r.target_entity_name) = []) :
    relationship_rows g r = [] := by
  unfold relationship_rows
  rcases h with h | h
  · rw [h]
    rfl
  · rw [h]
    induction g.nodes.filter (fun n => n.name == r.source_entity_name) with
    | nil => rfl
    | cons s rest ih => simp [ih]

theorem rows_singleton (g : Graph) (r : Relationship) (s t : Node)
    (hs : g.nodes.filter (fun n => n.name == r.source_entity_name) = [s])
    (ht : g.nodes.filter (fun n => n.name == r.target_entity_name) = [t]) :
    relationship_rows g r = [(s, t)] := by
  unfold relationship_rows
  rw [hs, ht]
  rfl

theorem snd_create_relationship (g : Graph) (r : Relationship) :
    (create_relationship true g r).2 = wrapAttrs r := by
  unfold create_relationship
  cases h : relationship_query g (wrapAttrs r) <;> simp [h]

theorem create_rel_fresh (g : Graph) (r : Relationship) (s t : Node)
    (a : List (String × PyVal)) (rt : String)
    (hrteq : sanitizeRelType r.relation_type = rt)
    (hs : g.nodes.filter (fun n => n.name == r.source_entity_name) = [s])
    (ht : g.nodes.filter (fun n => n.name == r.target_entity_name) = [t])
    (ha : r.attributes = .dict a)
    (hrt : rt ≠ "")
    (h0 : ∀ e ∈ g.edges, tripleP s.id t.id rt e = false) :
    (create_relationship true g r).1 =
      { g with edges := g.edges ++ [⟨s.id, t.id, rt, overlay [] a⟩] } := by
  have hw : wrapAttrs r = r := wrapAttrs_eq_self r a ha
  have hrows : relationship_rows g r = [(s, t)] := rows_singleton g r s t hs ht
  have hany : g.edges.any (tripleP s.id t.id rt) = false := by
    rw [List.any_eq_false]
    intro e he
    simp [h0 e he]
  have hbeq : (rt == "") = false := beq_eq_false_iff_ne.mpr hrt
  have hm : mergeRow rt a g (s, t) =
      .ok { g with edges := g.edges ++ [⟨s.id, t.id, rt, overlay [] a⟩] } := by
    simp [mergeRow, hany, hbeq]
  have hq : relationship_query g r =
      .ok { g with edges := g.edges ++ [⟨s.id, t.id, rt, overlay [] a⟩] } := by
    unfold relationship_query
    rw [hrows, ha, hrteq]
    simp [PyVal.dictEntries, runRows, hm]
  simp [create_relationship, hw, hq]

theorem create_rel_existing (g : Graph) (r : Relationship) (s t : Node)
    (a : List (String × PyVal)) (rt : String)
    (hrteq : sanitizeRelType r.relation_type = rt)
    (hs : g.nodes.filter (fun n => n.name == r.source_entity_name) = [s])
    (ht : g.nodes.filter (fun n => n.name == r.target_entity_name) = [t])
    (ha : r.attributes = .dict a)
    (hany : g.edges.any (tripleP s.id t.id rt) = true) :
    (create_relationship true g r).1 =
      { g with edges := g.edges.map (fun e =>
          if tripleP s.id t.id rt e then { e with attrs := overlay e.attrs a } else e) } := by
  have hw : wrapAttrs r = r := wrapAttrs_eq_self r a ha
  have hrows : relationship_rows g r = [(s, t)] := rows_singleton g r s t hs ht
  have hm : mergeRow rt a g (s, t) =
      .ok { g with edges := g.edges.map (fun e =>
        if tripleP s.id t.id rt e then { e with attrs := overlay e.attrs a } else e) } := by
    simp [mergeRow, hany]
  have hq : relationship_query g r =
      .ok { g with edges := g.edges.map (fun e =>
        if tripleP s.id t.id rt e then { e with attrs := overlay e.attrs a } else e) } := by
    unfold relationship_query
    rw [hrows, ha, hrteq]
    simp [PyVal.dictEntries, runRows, hm]
  simp [create_relationship, hw, hq]

theorem merged_edges_shape (gold : List Edge) (E1 : Edge) (a2 : List (String × PyVal))
    (sid tid : Nat) (rt : String)
    (h0 : ∀ e ∈ gold, tripleP sid tid rt e = false)
    (htrip : tripleP sid tid rt E1 = true) :
    ((gold ++ [E1]).map (fun e =>
        if tripleP sid tid rt e then { e with attrs := overlay e.attrs a2 } else e)).countP
      (tripleP sid tid rt) = 1 ∧
    ((gold ++ [E1]).map (fun e =>
        if tripleP sid tid rt e then { e with attrs := overlay e.attrs a2 } else e)).find?
      (tripleP sid tid rt) = some { E1 with attrs := overlay E1.attrs a2 } := by
  have hpf : ∀ e : Edge, tripleP sid tid rt
      (if tripleP sid tid rt e then { e with attrs := overlay e.attrs a2 } else e) =
      tripleP sid tid rt e := by
    intro e
    by_cases he : tripleP sid tid rt e = true
    · rw [if_pos he]
      rfl
    · rw [if_neg he]
  constructor
  · rw [List.countP_map]
    have hc : ∀ e ∈ gold ++ [E1],
        (((tripleP sid tid rt) ∘ (fun e =>
          if tripleP sid tid rt e then { e with attrs := overlay e.attrs a2 } else e)) e = true ↔
        tripleP sid tid rt e = true) := fun e _ => by rw [Function.comp_apply, hpf e]
    rw [List.countP_congr hc, List.countP_append]
    have hz : gold.countP (tripleP sid tid rt) = 0 := by
      rw [List.countP_eq_zero]
      intro e he
      simp [h0 e he]
    rw [hz]
    simp [List.countP_cons, htrip]
  · rw [List.map_append]
    have hnone : (gold.map (fun e =>
        if tripleP sid tid rt e then { e with attrs := overlay e.attrs a2 } else e)).find?
        (tripleP sid tid rt) = none := by
      rw [List.find?_eq_none]
      intro x hx
      simp only [List.mem_map] at hx
      obtain ⟨e, he, heq⟩ := hx
      subst heq
      rw [hpf e, h0 e he]
      simp
    rw [find?_append_of_none _ _ _ hnone]
    simp only [List.map_cons, List.map_nil]
    rw [if_pos htrip]
    have htrip2 : tripleP sid tid rt ({ E1 with attrs := overlay E1.attrs a2 } : Edge) = true :=
      htrip
    simp [List.find?, htrip2]

/-! The claim theorems. -/

/-- Claim C1 (failing-input evaluation): with the shared name `Paris` and
both category sets empty, both `create_node` calls build the malformed
query `CREATE (n: \x7bname: ..., description: ...\x7d)` (dangling label
colon), so both transactions fail, both calls return `None`, and the store
ends up holding zero nodes named `Paris` — not the exactly one node the
claim requires. -/
theorem claim_C1 :
    countName (create_node true (create_node true emptyGraph eParisNoCat).1 eParisNoCat).1
        "Paris" = 0 ∧
    (create_node true emptyGraph eParisNoCat).2 = .ret none ∧
    (create_node true (create_node true emptyGraph eParisNoCat).1 eParisNoCat).2 = .ret none :=
  ⟨rfl, rfl, rfl⟩

/-- Claim C3: a relationship whose source or target name matches no stored
node yields zero rows from the two `MATCH` clauses, so the `MERGE` never
runs: the graph — nodes, edges, id counter — is returned unchanged and the
call completes normally. -/
theorem claim_C3 (g : Graph) (r : Relationship)
    (h : g.nodes.filter (fun n => n.name == r.source_entity_name) = [] ∨
         g.nodes.filter (fun n => n.name == r.target_entity_name) = []) :
    (create_relationship true g r).1 = g := by
  have hrows : relationship_rows g (wrapAttrs r) = [] := by
    refine rows_eq_nil g (wrapAttrs r) ?_
    rcases h with h | h
    · exact Or.inl (by rw [wrapAttrs_source]; exact h)
    · exact Or.inr (by rw [wrapAttrs_target]; exact h)
  simp [create_relationship, relationship_query, hrows, runRows]

/-- Claim C3 witness: storing `Paris -> Atlantis` while no `Atlantis` node
exists leaves the `Paris`/`France` store untouched. -/
theorem claim_C3_witness :
    gPF.nodes.filter (fun n => n.name == rDangling.target_entity_name) = [] ∧
    (create_relationship true gPF rDangling).1 = gPF :=
  ⟨rfl, claim_C3 gPF rDangling (Or.inr rfl)⟩

/-- Claim C4 (failing-input evaluation): an entity with an empty category
set and a fresh name hits the `CREATE` branch, whose query is malformed
(dangling label colon), so no node is created and `None` is returned
instead of the new identifier the claim promises. -/
theorem claim_C4 :
    create_node true emptyGraph ⟨"Telescope", "an optical instrument", []⟩ =
      (emptyGraph, .ret none) :=
  rfl

/-- Claim C5 (failing-input evaluation): on a graph with two nodes and zero
edges the query yields no records, the empty (falsy) record list takes the
no-path branch, and `find_longest_paths` returns `None` — an absent value,
not the empty sequence the claim (and the method's own `List[str]` return
annotation) promise. -/
theorem claim_C5 : find_longest_paths true gTwoIsolated = none :=
  rfl

/-- Claim C6 counterexample: with the store unreachable, `create_node`
returns the normal value `None` (the `except` block swallows every
exception); it does not raise a `StoreUnavailable`-style error. -/
theorem claim_C6_cex :
    (create_node false gPF eParisCapital).2 = Outcome.ret none ∧
    (create_node false gPF eParisCapital).2 ≠ Outcome.raise "StoreUnavailable" :=
  ⟨rfl, by decide⟩

/-- Claim C6 as amended: whenever the underlying store cannot be reached,
`create_node` catches the failure, logs it, and returns normally with no
identifier (`None`) and an unchanged graph; the caller skips the entity. -/
theorem claim_C6 (g : Graph) (e : Entity) :
    create_node false g e = (g, .ret none) :=
  rfl

/-- Claim C6 amended-theorem instantiation at a concrete store. -/
theorem claim_C6_witness : create_node false gPF eParisCapital = (gPF, .ret none) :=
  claim_C6 gPF eParisCapital

/-- Claim C7: when the entity's name matches a stored node, `create_node`
only runs the label-merge `SET` (or fails and rolls back): every stored
node keeps its id, name and description, and its label set only grows. -/
theorem claim_C7 (g : Graph) (e : Entity)
    (hex : ∃ n, n ∈ g.nodes ∧ n.name = e.name) :
    ∀ n ∈ g.nodes, ∃ m, m ∈ (create_node true g e).1.nodes ∧
      m.id = n.id ∧ m.name = n.name ∧ m.description = n.description ∧
      ∀ l ∈ n.labels, l ∈ m.labels := by
  intro n hn
  unfold create_node create_node_tx
  cases hf : g.nodes.find? (fun x => x.name == e.name) with
  | none =>
    cases hl : labelsOk e.category with
    | false => exact ⟨n, by simp [hf, hl, hn], rfl, rfl, rfl, fun l hl2 => hl2⟩
    | true =>
      refine ⟨n, ?_, rfl, rfl, rfl, fun l hl2 => hl2⟩
      simp only [hf, hl, if_true]
      exact List.mem_append_left _ hn
  | some n0 =>
    cases hl : labelsOk e.category with
    | false => exact ⟨n, by simp [hf, hl, hn], rfl, rfl, rfl, fun l hl2 => hl2⟩
    | true =>
      refine ⟨if n.id == n0.id then { n with labels := addLabels n.labels e.category } else n,
        ?_, ?_, ?_, ?_, ?_⟩
      · simp only [hf, hl, if_true]
        exact List.mem_map_of_mem _ hn
      · split <;> rfl
      · split <;> rfl
      · split <;> rfl
      · intro l hl2
        split
        · exact mem_addLabels_of_mem hl2
        · exact hl2

/-- Claim C7 instantiation: merging the `Capital` label onto the stored
`Paris` node leaves its description `capital of France` in place. -/
theorem claim_C7_witness :
    (∃ n, n ∈ gPF.nodes ∧ n.name = "Paris") ∧
    ∃ m, m ∈ (create_node true gPF eParisCapital).1.nodes ∧
      m.id = 0 ∧ m.name = "Paris" ∧ m.description = "capital of France" ∧
      ∀ l ∈ ["City"], l ∈ m.labels := by
  have hex : ∃ n, n ∈ gPF.nodes ∧ n.name = "Paris" := ⟨nodeParis, by simp [gPF], rfl⟩
  exact ⟨hex, claim_C7 gPF eParisCapital hex nodeParis (by simp [gPF])⟩

/-- Claim C8: on both exit paths of the generation run — normal completion
and an escaping exception (which `main` converts to exit code 2) — the
`finally` block closes the Neo4j client before the outcome surfaces. -/
theorem claim_C8 (o : GenOutcome) :
    Event.closeClient ∈ (mainCore o).1 ∧
    ((mainCore o).2 = none ∨ (mainCore o).2 = some 2) := by
  cases o <;> simp [mainCore, withFinally, genBody]

/-- Claim C8 instantiation at the exception outcome. -/
theorem claim_C8_witness :
    Event.closeClient ∈ (mainCore (.exc "boom")).1 ∧
    ((mainCore (.exc "boom")).2 = none ∨ (mainCore (.exc "boom")).2 = some 2) :=
  claim_C8 (.exc "boom")

/-- Claim C9 counterexample: after a first successful close the `_driver`
field is still set (the code never clears it), so a second `close` takes
the driver branch again and logs the info line, not the warning the claim
describes. -/
theorem claim_C9_cex :
    ( close ( close ⟨some ⟨false⟩⟩).1).2 = LogMsg.infoClosed ∧
    ( close ( close ⟨some ⟨false⟩⟩).1).2 ≠ LogMsg.warnAlready :=
  ⟨rfl, by decide⟩

/-- Claim C9 as amended: a second `close` after a successful first one does
not fail — it calls the (idempotent) driver close again and logs the normal
info line; the already-closed warning is logged exactly when no driver
handle was ever created (construction failed before the driver existed). -/
theorem claim_C9 (c : ClientConn) (d : DriverHandle) (h : c.driver = some d) :
    ( close ( close c).1).2 = LogMsg.infoClosed ∧
    ( close ( close c).1).1.driver = some ⟨true⟩ ∧
    ∀ c2 : ClientConn, c2.driver = none → ( close c2).2 = LogMsg.warnAlready := by
  obtain ⟨dr⟩ := c
  simp only at h
  subst h
  refine ⟨rfl, rfl, ?_⟩
  intro c2 h2
  obtain ⟨dr2⟩ := c2
  simp only at h2
  subst h2
  rfl

/-- Claim C9 amended-theorem instantiation at a live connection. -/
theorem claim_C9_witness :
    (⟨some ⟨false⟩⟩ : ClientConn).driver = some ⟨false⟩ ∧
    ( close ( close (⟨some ⟨false⟩⟩ : ClientConn)).1).2 = LogMsg.infoClosed :=
  ⟨rfl, (claim_C9 ⟨some ⟨false⟩⟩ ⟨false⟩ rfl).1⟩

/-- Claim C10: `_create_relationship_tx` first normalizes the argument in
place — a non-map `attributes` field is reassigned to the one-entry map
under `stored_data`, observably mutating the caller's object, while a map
is left untouched.  The returned second component is the caller's object
after the call. -/
theorem claim_C10 (g : Graph) (r : Relationship) :
    (r.attributes.isDict = false →
      (create_relationship true g r).2 =
        { r with attributes := .dict [("stored_data", r.attributes)] }) ∧
    (r.attributes.isDict = true → (create_relationship true g r).2 = r) := by
  constructor <;> intro h <;> rw [snd_create_relationship] <;> simp [wrapAttrs, h]

/-- Claim C10 instantiation: a bare-string attribute value is wrapped. -/
theorem claim_C10_witness :
    rLoose.attributes.isDict = false ∧
    (create_relationship true gPF rLoose).2 =
      { rLoose with attributes := .dict [("stored_data", .str "loose")] } :=
  ⟨rfl, (claim_C10 gPF rLoose).1 rfl⟩

/-- Claim C2 counterexample: both endpoints (`Paris`, `France`) are stored,
the two relationships agree on the triple and carry proper attribute maps,
yet after both calls zero edges are stored — the relation type consists
only of characters the code strips, the sanitized type is the empty string,
and the store refuses to create a relationship type with an empty token
name, so each transaction fails and is rolled back. -/
theorem claim_C2_cex :
    gPF.nodes.filter (fun n => n.name == rEmptyTy.source_entity_name) = [nodeParis] ∧
    gPF.nodes.filter (fun n => n.name == rEmptyTy.target_entity_name) = [nodeFrance] ∧
    countEdgesTriple (create_relationship true (create_relationship true gPF rEmptyTy).1
        rEmptyTy).1 nodeParis.id nodeFrance.id (sanitizeRelType rEmptyTy.relation_type) = 0 ∧
    countEdgesTriple (create_relationship true (create_relationship true gPF rEmptyTy).1
        rEmptyTy).1 nodeParis.id nodeFrance.id (sanitizeRelType rEmptyTy.relation_type) ≠ 1 :=
  ⟨rfl, rfl, rfl, by decide⟩

/-- Claim C2 as amended: for relationships `r1, r2` agreeing on the
`(source, target, relation_type)` triple, whose endpoints are stored
(uniquely, per the name-key invariant), whose attributes are key-unique
maps, whose relation type keeps at least one character after the code
strips backticks and quote characters, and with no stored edge for the
triple beforehand: creating both leaves exactly one stored edge for the
triple, and its attribute map is `r1.attributes` overlaid by
`r2.attributes` — keys of `r2` win, keys only in `r1` survive. -/
theorem claim_C2 (g : Graph) (r1 r2 : Relationship) (s t : Node)
    (a1 a2 : List (String × PyVal))
    (hsrc : r2.source_entity_name = r1.source_entity_name)
    (htgt : r2.target_entity_name = r1.target_entity_name)
    (hty : r2.relation_type = r1.relation_type)
    (hs : g.nodes.filter (fun n => n.name == r1.source_entity_name) = [s])
    (ht : g.nodes.filter (fun n => n.name == r1.target_entity_name) = [t])
    (ha1 : r1.attributes = .dict a1) (ha2 : r2.attributes = .dict a2)
    (hn1 : keysNodup a1) (hn2 : keysNodup a2)
    (hrt : sanitizeRelType r1.relation_type ≠ "")
    (h0 : ∀ e ∈ g.edges, tripleP s.id t.id (sanitizeRelType r1.relation_type) e = false) :
    countEdgesTriple (create_relationship true (create_relationship true g r1).1 r2).1
        s.id t.id (sanitizeRelType r1.relation_type) = 1 ∧
    edgeAttrsTriple (create_relationship true (create_relationship true g r1).1 r2).1
        s.id t.id (sanitizeRelType r1.relation_type) =
      some (overlay (overlay [] a1) a2) ∧
    ∀ k, lookupKey (overlay (overlay [] a1) a2) k =
      firstSome (lookupKey a2 k) (lookupKey a1 k) := by
  have hg1 := create_rel_fresh g r1 s t a1 (sanitizeRelType r1.relation_type) rfl hs ht ha1 hrt h0
  rw [hg1]
  have hs2 : ({ g with edges := g.edges ++
        [⟨s.id, t.id, sanitizeRelType r1.relation_type, overlay [] a1⟩] } : Graph).nodes.filter
      (fun n => n.name == r2.source_entity_name) = [s] := by
    rw [hsrc]; exact hs
  have ht2 : ({ g with edges := g.edges ++
        [⟨s.id, t.id, sanitizeRelType r1.relation_type, overlay [] a1⟩] } : Graph).nodes.filter
      (fun n => n.name == r2.target_entity_name) = [t] := by
    rw [htgt]; exact ht
  have htrip : tripleP s.id t.id (sanitizeRelType r1.relation_type)
      ⟨s.id, t.id, sanitizeRelType r1.relation_type, overlay [] a1⟩ = true := by
    simp [tripleP]
  have hany : ({ g with edges := g.edges ++
        [⟨s.id, t.id, sanitizeRelType r1.relation_type, overlay [] a1⟩] } : Graph).edges.any
      (tripleP s.id t.id (sanitizeRelType r1.relation_type)) = true := by
    simp [List.any_append, htrip]
  have hg2 := create_rel_existing
    { g with edges := g.edges ++ [⟨s.id, t.id, sanitizeRelType r1.relation_type, overlay [] a1⟩] }
    r2 s t a2 (sanitizeRelType r1.relation_type) (by rw [hty]) hs2 ht2 ha2 hany
  rw [hg2]
  obtain ⟨hcount, hfind⟩ := merged_edges_shape g.edges
    ⟨s.id, t.id, sanitizeRelType r1.relation_type, overlay [] a1⟩ a2 s.id t.id
    (sanitizeRelType r1.relation_type) h0 htrip
  refine ⟨hcount, ?_, ?_⟩
  · exact congrArg (Option.map Edge.attrs) hfind
  · intro k
    rw [lookupKey_overlay a2 hn2, lookupKey_overlay a1 hn1]
    rw [show lookupKey [] k = none from rfl, firstSome_none_right]

/-- Claim C2 amended-theorem instantiation: the spec's concrete scenario —
`capital_of` from `Paris` to `France` with `since: 1789` then
`since: 1792` — leaves one stored edge whose `since` value is `1792`. -/
theorem claim_C2_witness :
    countEdgesTriple (create_relationship true (create_relationship true gPF rSince1).1
        rSince2).1 nodeParis.id nodeFrance.id (sanitizeRelType rSince1.relation_type) = 1 ∧
    lookupKey (overlay (overlay [] [("since", PyVal.int 1789)]) [("since", PyVal.int 1792)])
        "since" = some (.int 1792) := by
  have h := claim_C2 gPF rSince1 rSince2 nodeParis nodeFrance
    [("since", PyVal.int 1789)] [("since", PyVal.int 1792)]
    rfl rfl rfl rfl rfl rfl rfl (by simp [keysNodup]) (by simp [keysNodup]) (by decide)
    (fun e he => absurd he (List.not_mem_nil e))
  refine ⟨h.1, ?_⟩
  rw [h.2.2 "since"]
  rfl

end AgenticKG
